import Mathlib

/-!
Shallow embedding of the two decision engines of this repository:
the setting application engine (scripts/apply_settings.py) and the
schema drift detector (scripts/stability_check.py).

Conventions used throughout the embedding:
- Python dicts with optional keys become structures whose fields are
  `Option`-valued; `none` models an absent key.
- Python dict comprehensions (later entry wins on key collision) become
  association lists queried with `pyDictGet`, which returns the value of
  the last pair carrying the key.
- Python string operations `strip`, `lower`, `in`, and truthiness-based
  `or` chains are modelled by `pyStrip`, `pyLower`, `pyIn`, `pyOr2`.
- `sorted` becomes `pySorted`, a stable merge sort by the string order.
-/

def pyLower (s : String) : String := String.mk (s.data.map Char.toLower)

def pyStrip (s : String) : String :=
  String.mk (((s.data.dropWhile Char.isWhitespace).reverse.dropWhile Char.isWhitespace).reverse)

/-- Python `needle in hay` on strings: substring containment. -/
def pyIn (needle hay : String) : Bool := decide (needle.data <:+: hay.data)

/-- Python `x or d` for an optional string `x`: an absent or empty string is falsy. -/
def pyOr2 (o : Option String) (d : String) : String :=
  match o with
  | some s => if s = "" then d else s
  | none => d

/-- Python `x or d` for an optional list `x`: an absent or empty list is falsy. -/
def pyOrList {α : Type} (o : Option (List α)) (d : List α) : List α :=
  match o with
  | some l => if l.isEmpty then d else l
  | none => d

/-- Lexicographic strict order on code-point lists, written as a boolean
function so that it reduces inside the kernel. -/
def charListLt : List Char → List Char → Bool
  | [], [] => false
  | [], _ :: _ => true
  | _ :: _, [] => false
  | a :: as, b :: bs => a.toNat < b.toNat || (a == b && charListLt as bs)

/-- The non-strict string order Python's `sorted` uses. -/
def strLe (a b : String) : Bool := a == b || charListLt a.data b.data

/-- Python `sorted` on strings: a stable sort by the lexicographic order.
Insertion sort is used because it reduces inside the kernel. -/
def pySorted (l : List String) : List String :=
  l.insertionSort (fun a b => strLe a b = true)

lemma mem_pySorted {l : List String} {x : String} : x ∈ pySorted l ↔ x ∈ l :=
  (List.perm_insertionSort (fun a b => strLe a b = true) l).mem_iff

lemma pySorted_nodup {l : List String} (h : l.Nodup) : (pySorted l).Nodup :=
  ((List.perm_insertionSort (fun a b => strLe a b = true) l).symm).nodup h

/-- Lookup in an association list with Python-dict semantics: the value of the
last pair whose key matches wins, mirroring dict-comprehension overwriting. -/
def pyDictGet {α : Type} (pairs : List (String × α)) (k : String) : Option α :=
  ((pairs.filter (fun p => p.1 == k)).getLast?).map (fun p => p.2)

def dictKeys {α : Type} (pairs : List (String × α)) : List String :=
  (pairs.map (fun p => p.1)).dedup

namespace StabilityCheck

/-- One entry of a setting's `options` array: `{value, label}`. -/
structure SCOption where
  value : Option String := none
  label : Option String := none
deriving DecidableEq, Repr

/-- The `control.primary_selector` sub-object of a rich field record. -/
structure SCPrimarySel where
  name : Option String := none
deriving DecidableEq, Repr

/-- The `control` sub-object of a rich field record. -/
structure SCControl where
  primary_selector : Option SCPrimarySel := none
  canonical_control_id : Option String := none
deriving DecidableEq, Repr

/-- A sub-object carrying only a `title` key (the `container` and `group`
sub-objects of a rich field record). -/
structure SCTitled where
  title : Option String := none
deriving DecidableEq, Repr

/-- The `context` sub-object of a rich field record. -/
structure SCContext where
  frame_url : Option String := none
  modal_title : Option String := none
deriving DecidableEq, Repr

/-- The `value` sub-object of a rich field record (present when the JSON
`value` key holds a dict). -/
structure SCValue where
  current_value : Option String := none
deriving DecidableEq, Repr

/-- One setting record of a schema snapshot, in either the legacy shape
(`settingKey`, `label`, `containerKey`, `groupTitle`, `currentValue`) or the
rich `fieldRecords` shape (`field_id`, `control`, `page`, `breadcrumb`,
`container`, `group`, `context`, `value`). `none` models an absent key. -/
structure SCSetting where
  field_id : Option String := none
  settingKey : Option String := none
  label : Option String := none
  type : Option String := none
  containerKey : Option String := none
  groupTitle : Option String := none
  page : Option String := none
  breadcrumb : Option (List String) := none
  container : Option SCTitled := none
  group : Option SCTitled := none
  control : Option SCControl := none
  context : Option SCContext := none
  options : Option (List SCOption) := none
  value : Option SCValue := none
  currentValue : Option String := none
deriving DecidableEq, Repr

/-- A container entry of a schema snapshot; `compare_schemas` only reads its
`containerKey`. -/
structure SCContainer where
  containerKey : String
deriving DecidableEq, Repr

/-- A schema snapshot: `containers` plus settings under either `fieldRecords`
or `settings`. -/
structure Schema where
  containers : List SCContainer := []
  fieldRecords : Option (List SCSetting) := none
  settings : Option (List SCSetting) := none
deriving DecidableEq, Repr

/-- Embedding of `schema_settings`: `schema.get("fieldRecords") or schema.get("settings") or []`. -/
def schema_settings (schema : Schema) : List SCSetting :=
  pyOrList schema.fieldRecords (pyOrList schema.settings [])

/-- Embedding of `setting_label`: the `label` key when present, else
`control.primary_selector.name`, else `""`. -/
def setting_label (setting : SCSetting) : String :=
  match setting.label with
  | some l => l
  | none =>
    match setting.control with
    | some c =>
      match c.primary_selector with
      | some p => p.name.getD ""
      | none => ""
    | none => ""

/-- Embedding of `setting_type`: `str(setting.get("type") or "")`. -/
def setting_type (setting : SCSetting) : String := setting.type.getD ""

/-- Embedding of `setting_id`: `str(setting.get("field_id") or setting.get("settingKey") or "")`. -/
def setting_id (setting : SCSetting) : String :=
  pyOr2 setting.field_id (pyOr2 setting.settingKey "")

/-- Embedding of `setting_signature`: the rich shape (when the `field_id` key is present)
joins page, breadcrumb, container title, group title, canonical control id,
frame url, modal title and type with `|`; the legacy shape joins containerKey,
groupTitle, label and type. -/
def setting_signature (setting : SCSetting) : String :=
  match setting.field_id with
  | some _ =>
    String.intercalate "|"
      [ setting.page.getD ""
      , String.intercalate "|" (setting.breadcrumb.getD [])
      , (match setting.container with | some c => c.title.getD "" | none => "")
      , (match setting.group with | some g => g.title.getD "" | none => "")
      , (match setting.control with | some c => c.canonical_control_id.getD "" | none => "")
      , (match setting.context with | some c => c.frame_url.getD "" | none => "")
      , (match setting.context with | some c => c.modal_title.getD "" | none => "")
      , setting_type setting
      ]
  | none =>
    String.intercalate "|"
      [ setting.containerKey.getD ""
      , setting.groupTitle.getD ""
      , setting_label setting
      , setting_type setting
      ]

/-- The current value string read by `is_timestamp_field`: `value.current_value`
when the `value` key holds a dict, else `currentValue`. -/
def setting_current_value (setting : SCSetting) : String :=
  match setting.value with
  | some v => v.current_value.getD ""
  | none => setting.currentValue.getD ""

/-- Embedding of `is_timestamp_field`: the lowered label contains `time` or `date`, or the
current value is nonempty and contains a `/` or `:` together with a digit. -/
def is_timestamp_field (setting : SCSetting) : Bool :=
  let label := pyLower (setting_label setting)
  if pyIn "time" label || pyIn "date" label then true
  else
    let value := setting_current_value setting
    value ≠ "" &&
      ((value.data.any (fun ch => ch = '/' || ch = ':')) && value.data.any Char.isDigit)

/-- One entry of the `dropdownsMissingOptionsA`/`B` lists. -/
structure DropdownFail where
  fieldId : String
  label : String
  reason : String
deriving DecidableEq, Repr

/-- Embedding of `dropdown_missing_options`: each `dropdown_native`/`dropdown_aria` setting
whose `options` array is absent or empty. -/
def dropdown_missing_options (settings : List SCSetting) : List DropdownFail :=
  settings.filterMap (fun item =>
    if (setting_type item = "dropdown_native" ∨ setting_type item = "dropdown_aria")
        ∧ (item.options.getD []) = [] then
      some { fieldId := setting_id item, label := setting_label item
             , reason := "dropdown has empty options[]" }
    else none)

/-- The option-label list collected by `radio_order_index` for one setting:
`str(option.get("label") or option.get("value") or "")`. -/
def radio_order_labels (item : SCSetting) : List String :=
  (item.options.getD []).map (fun o => pyOr2 o.label (pyOr2 o.value ""))

/-- Embedding of `radio_order_index`: signature → ordered option labels, for every
`radio_group` setting. -/
def radio_order_index (settings : List SCSetting) : List (String × List String) :=
  settings.filterMap (fun item =>
    if setting_type item = "radio_group" then
      some (setting_signature item, radio_order_labels item)
    else none)

/-- The signature → identifier map built in step 4 of `compare_schemas`:
settings with an identifier that are not timestamp fields. -/
def signature_map (settings : List SCSetting) : List (String × String) :=
  settings.filterMap (fun item =>
    if setting_id item ≠ "" ∧ is_timestamp_field item = false then
      some (setting_signature item, setting_id item)
    else none)

/-- The identifier → setting dict of `compare_schemas` (settings without an
identifier are excluded; later records win). -/
def settings_dict (settings : List SCSetting) : List (String × SCSetting) :=
  settings.filterMap (fun item =>
    if setting_id item ≠ "" then some (setting_id item, item) else none)

/-- One entry of `labelOrTypeChanged`. -/
structure LabelTypeEntry where
  settingKey : String
  firstLabel : String
  firstType : String
  secondLabel : String
  secondType : String
deriving DecidableEq, Repr

/-- One entry of `fieldIdDrift`. -/
structure DriftEntry where
  signature : String
  firstFieldId : String
  secondFieldId : String
deriving DecidableEq, Repr

/-- One entry of `radioOrderingChangedWithoutLabelChange`. -/
structure RadioEntry where
  signature : String
  firstOrder : List String
  secondOrder : List String
deriving DecidableEq, Repr

/-- The diff object produced by `compare_schemas`. -/
structure Diff where
  containersAdded : List String
  containersRemoved : List String
  settingsAdded : List String
  settingsRemoved : List String
  labelOrTypeChanged : List LabelTypeEntry
  fieldIdDrift : List DriftEntry
  dropdownsMissingOptionsA : List DropdownFail
  dropdownsMissingOptionsB : List DropdownFail
  radioOrderingChangedWithoutLabelChange : List RadioEntry
deriving DecidableEq, Repr

/-- Python `sorted(first_keys - second_keys)` on key sets. -/
def key_diff (first_keys second_keys : List String) : List String :=
  pySorted (first_keys.filter (fun k => !(decide (k ∈ second_keys))))

/-- Python `sorted(first_keys & second_keys)` on key sets. -/
def key_inter (first_keys second_keys : List String) : List String :=
  pySorted (first_keys.filter (fun k => decide (k ∈ second_keys)))

/-- The loop body of step 3 of `compare_schemas`: for one identifier present
in both settings dicts, record an entry when the label or the type differs. -/
def label_type_entry_at (first_settings second_settings : List (String × SCSetting))
    (key : String) : Option LabelTypeEntry :=
  match pyDictGet first_settings key, pyDictGet second_settings key with
  | some first_item, some second_item =>
    if setting_label first_item ≠ setting_label second_item
        ∨ setting_type first_item ≠ setting_type second_item then
      some { settingKey := key
             , firstLabel := setting_label first_item
             , firstType := setting_type first_item
             , secondLabel := setting_label second_item
             , secondType := setting_type second_item }
    else none
  | _, _ => none

/-- Step 3 of `compare_schemas`: for identifiers present in both settings
dicts, record an entry when the label or the type differs. -/
def label_type_diff (first_settings second_settings : List (String × SCSetting)) :
    List LabelTypeEntry :=
  (key_inter (dictKeys first_settings) (dictKeys second_settings)).filterMap
    (label_type_entry_at first_settings second_settings)

/-- The loop body of step 4 of `compare_schemas`: for one signature present
in both signature maps, record an entry when the mapped identifier differs. -/
def drift_entry_at (first_map second_map : List (String × String))
    (signature : String) : Option DriftEntry :=
  match pyDictGet first_map signature, pyDictGet second_map signature with
  | some a, some b =>
    if a ≠ b then
      some { signature := signature, firstFieldId := a, secondFieldId := b }
    else none
  | _, _ => none

/-- Step 4 of `compare_schemas`: for signatures present in both signature
maps, record an entry when the mapped identifier differs. -/
def field_id_drift_diff (first_map second_map : List (String × String)) :
    List DriftEntry :=
  (key_inter (dictKeys first_map) (dictKeys second_map)).filterMap
    (drift_entry_at first_map second_map)

/-- The loop body of step 6 of `compare_schemas`: for one radio signature,
record an entry when the two label lists differ but agree after sorting. -/
def radio_entry_at (first_radio second_radio : List (String × List String))
    (signature : String) : Option RadioEntry :=
  match pyDictGet first_radio signature, pyDictGet second_radio signature with
  | some first_labels, some second_labels =>
    if first_labels = second_labels then none
    else if pySorted first_labels = pySorted second_labels then
      some { signature := signature
             , firstOrder := first_labels, secondOrder := second_labels }
    else none
  | _, _ => none

/-- Step 6 of `compare_schemas`: for radio signatures present in both order
indexes, record an entry when the label lists differ but agree after sorting. -/
def radio_ordering_diff (first_radio second_radio : List (String × List String)) :
    List RadioEntry :=
  (key_inter (dictKeys first_radio) (dictKeys second_radio)).filterMap
    (radio_entry_at first_radio second_radio)

/-- Embedding of `compare_schemas`: set differences on container keys and setting
identifiers, label/type comparison on shared identifiers, identifier drift on
shared signatures (timestamp fields excluded), empty-options dropdown scan of
both snapshots, and radio option-order comparison on shared signatures. -/
def compare_schemas (first second : Schema) : Diff :=
  let first_containers := first.containers.map (fun c => (c.containerKey, c))
  let second_containers := second.containers.map (fun c => (c.containerKey, c))
  let first_settings_list := schema_settings first
  let second_settings_list := schema_settings second
  let first_settings := settings_dict first_settings_list
  let second_settings := settings_dict second_settings_list
  let first_container_keys := dictKeys first_containers
  let second_container_keys := dictKeys second_containers
  let first_setting_keys := dictKeys first_settings
  let second_setting_keys := dictKeys second_settings
  { containersAdded := key_diff second_container_keys first_container_keys
  , containersRemoved := key_diff first_container_keys second_container_keys
  , settingsAdded := key_diff second_setting_keys first_setting_keys
  , settingsRemoved := key_diff first_setting_keys second_setting_keys
  , labelOrTypeChanged := label_type_diff first_settings second_settings
  , fieldIdDrift := field_id_drift_diff (signature_map first_settings_list)
      (signature_map second_settings_list)
  , dropdownsMissingOptionsA := dropdown_missing_options first_settings_list
  , dropdownsMissingOptionsB := dropdown_missing_options second_settings_list
  , radioOrderingChangedWithoutLabelChange := radio_ordering_diff
      (radio_order_index first_settings_list) (radio_order_index second_settings_list)
  }

/-- Embedding of `has_drift`: any of the nine diff collections is nonempty. -/
def has_drift (diff : Diff) : Bool :=
  !diff.containersAdded.isEmpty || !diff.containersRemoved.isEmpty ||
  !diff.settingsAdded.isEmpty || !diff.settingsRemoved.isEmpty ||
  !diff.labelOrTypeChanged.isEmpty || !diff.fieldIdDrift.isEmpty ||
  !diff.dropdownsMissingOptionsA.isEmpty || !diff.dropdownsMissingOptionsB.isEmpty ||
  !diff.radioOrderingChangedWithoutLabelChange.isEmpty

lemma mem_of_getLast?_eq {α : Type} {l : List α} {a : α} (h : l.getLast? = some a) :
    a ∈ l := by
  obtain ⟨hne, rfl⟩ := List.mem_getLast?_eq_getLast (show a ∈ l.getLast? from by
    rw [Option.mem_def, h])
  exact List.getLast_mem hne

lemma pyDictGet_mem {α : Type} {pairs : List (String × α)} {k : String} {v : α}
    (h : pyDictGet pairs k = some v) : (k, v) ∈ pairs := by
  unfold pyDictGet at h
  cases hl : (pairs.filter (fun p => p.1 == k)).getLast? with
  | none => rw [hl] at h; simp at h
  | some p =>
    rw [hl] at h
    simp only [Option.map_some'] at h
    have hmem := mem_of_getLast?_eq hl
    rw [List.mem_filter] at hmem
    obtain ⟨hp, hk⟩ := hmem
    have hk2 : p.1 = k := by simpa using hk
    have : p = (k, v) := by
      cases p
      cases h
      cases hk2
      rfl
    rw [← this]
    exact hp

lemma pyDictGet_key_mem {α : Type} {pairs : List (String × α)} {k : String} {v : α}
    (h : pyDictGet pairs k = some v) : k ∈ dictKeys pairs := by
  unfold dictKeys
  rw [List.mem_dedup]
  exact List.mem_map_of_mem (fun p => p.1) (pyDictGet_mem h)

lemma key_diff_self (l : List String) : key_diff l l = [] := by
  unfold key_diff
  have : l.filter (fun k => !(decide (k ∈ l))) = [] := by
    rw [List.filter_eq_nil_iff]
    intro a ha
    simp [ha]
  rw [this]
  simp [pySorted]

lemma label_type_diff_self (d : List (String × SCSetting)) : label_type_diff d d = [] := by
  unfold label_type_diff
  rw [List.filterMap_eq_nil_iff]
  intro key _
  unfold label_type_entry_at
  cases h : pyDictGet d key with
  | none => simp [h]
  | some item => simp [h]

lemma field_id_drift_diff_self (m : List (String × String)) :
    field_id_drift_diff m m = [] := by
  unfold field_id_drift_diff
  rw [List.filterMap_eq_nil_iff]
  intro sig _
  unfold drift_entry_at
  cases h : pyDictGet m sig with
  | none => simp [h]
  | some a => simp [h]

lemma radio_ordering_diff_self (r : List (String × List String)) :
    radio_ordering_diff r r = [] := by
  unfold radio_ordering_diff
  rw [List.filterMap_eq_nil_iff]
  intro sig _
  unfold radio_entry_at
  cases h : pyDictGet r sig with
  | none => simp [h]
  | some labels => simp [h]

/-- C3. Comparing a snapshot with itself: every comparison-derived collection
is empty, but the two dropdown scans replay the snapshot's own empty-options
dropdown list, so the diff is only fully empty — and `driftDetected` only
false — when the snapshot has no dropdown with an empty options array. -/
theorem compare_self_diff (S : Schema) :
    (compare_schemas S S).containersAdded = [] ∧
    (compare_schemas S S).containersRemoved = [] ∧
    (compare_schemas S S).settingsAdded = [] ∧
    (compare_schemas S S).settingsRemoved = [] ∧
    (compare_schemas S S).labelOrTypeChanged = [] ∧
    (compare_schemas S S).fieldIdDrift = [] ∧
    (compare_schemas S S).radioOrderingChangedWithoutLabelChange = [] ∧
    (compare_schemas S S).dropdownsMissingOptionsA
      = dropdown_missing_options (schema_settings S) ∧
    (compare_schemas S S).dropdownsMissingOptionsB
      = dropdown_missing_options (schema_settings S) ∧
    (has_drift (compare_schemas S S) = false
      ↔ dropdown_missing_options (schema_settings S) = []) := by
  refine ⟨key_diff_self _, key_diff_self _, key_diff_self _, key_diff_self _,
    label_type_diff_self _, field_id_drift_diff_self _, radio_ordering_diff_self _,
    rfl, rfl, ?_⟩
  show has_drift
    { containersAdded := key_diff _ _
      , containersRemoved := key_diff _ _
      , settingsAdded := key_diff _ _
      , settingsRemoved := key_diff _ _
      , labelOrTypeChanged := label_type_diff _ _
      , fieldIdDrift := field_id_drift_diff _ _
      , dropdownsMissingOptionsA := dropdown_missing_options (schema_settings S)
      , dropdownsMissingOptionsB := dropdown_missing_options (schema_settings S)
      , radioOrderingChangedWithoutLabelChange := radio_ordering_diff _ _ } = false ↔ _
  simp only [key_diff_self, label_type_diff_self, field_id_drift_diff_self,
    radio_ordering_diff_self]
  simp [has_drift, List.isEmpty_iff]

/-- C3, counterexample to the claim as stated: a snapshot holding one
`dropdown_native` setting with an empty options array is compared with
itself, yet `dropdownsMissingOptionsA` is nonempty and `driftDetected` is
true. -/
theorem compare_self_not_empty :
    (compare_schemas
        { settings := some [{ settingKey := some "s1", type := some "dropdown_native"
                              , options := some [] }] }
        { settings := some [{ settingKey := some "s1", type := some "dropdown_native"
                              , options := some [] }] }).dropdownsMissingOptionsA ≠ []
    ∧ has_drift (compare_schemas
        { settings := some [{ settingKey := some "s1", type := some "dropdown_native"
                              , options := some [] }] }
        { settings := some [{ settingKey := some "s1", type := some "dropdown_native"
                              , options := some [] }] }) = true := by
  constructor
  · decide
  · decide

lemma sig_of_mem_signature_map {l : List SCSetting} {sig : String}
    (h : sig ∈ dictKeys (signature_map l)) :
    ∃ item ∈ l, is_timestamp_field item = false ∧ setting_signature item = sig := by
  unfold dictKeys at h
  rw [List.mem_dedup] at h
  obtain ⟨p, hp, hfst⟩ := List.mem_map.mp h
  unfold signature_map at hp
  obtain ⟨item, hitem, hcond⟩ := List.mem_filterMap.mp hp
  by_cases hc : setting_id item ≠ "" ∧ is_timestamp_field item = false
  · rw [if_pos hc] at hcond
    refine ⟨item, hitem, hc.2, ?_⟩
    cases hcond
    exact hfst
  · rw [if_neg hc] at hcond
    exact absurd hcond (by simp)

lemma mem_key_inter {k : String} {l1 l2 : List String} :
    k ∈ key_inter l1 l2 ↔ k ∈ l1 ∧ k ∈ l2 := by
  unfold key_inter
  rw [mem_pySorted, List.mem_filter]
  simp

lemma drift_entry_at_signature {fm sm : List (String × String)} {k : String}
    {e : DriftEntry} (h : drift_entry_at fm sm k = some e) : e.signature = k := by
  unfold drift_entry_at at h
  cases h1 : pyDictGet fm k with
  | none => rw [h1] at h; simp at h
  | some a =>
    cases h2 : pyDictGet sm k with
    | none => rw [h1, h2] at h; simp at h
    | some b =>
      simp only [h1, h2] at h
      by_cases hab : a ≠ b
      · rw [if_pos hab] at h
        cases Option.some.inj h
        rfl
      · rw [if_neg hab] at h
        exact absurd h (by simp)

lemma field_id_drift_entry {fm sm : List (String × String)} {e : DriftEntry}
    (h : e ∈ field_id_drift_diff fm sm) :
    e.signature ∈ dictKeys fm ∧ e.signature ∈ dictKeys sm := by
  unfold field_id_drift_diff at h
  obtain ⟨sig, hsig, hf⟩ := List.mem_filterMap.mp h
  rw [drift_entry_at_signature hf]
  exact mem_key_inter.mp hsig

/-- C4. A setting whose label contains "Last Updated" and whose current value
is "2024/01/01 10:00" is classified as a timestamp field, so (provided every
first-snapshot setting sharing its signature is also a timestamp field — in
particular when it is the only carrier of its signature) no `fieldIdDrift`
entry ever carries its signature, even when its identifier differs between
the snapshots; yet when its identifier is present in both settings dicts with
differing declared types, a `labelOrTypeChanged` entry for that identifier is
still recorded. -/
theorem timestamp_field_excluded (A B : Schema) (t : SCSetting)
    (hlabel : pyIn "Last Updated" (setting_label t) = true)
    (hvalue : setting_current_value t = "2024/01/01 10:00")
    (hA : ∀ u ∈ schema_settings A, setting_signature u = setting_signature t →
      is_timestamp_field u = true) :
    is_timestamp_field t = true ∧
    (∀ e ∈ (compare_schemas A B).fieldIdDrift, e.signature ≠ setting_signature t) ∧
    (∀ f g : SCSetting,
      pyDictGet (settings_dict (schema_settings A)) (setting_id t) = some f →
      pyDictGet (settings_dict (schema_settings B)) (setting_id t) = some g →
      setting_type f ≠ setting_type g →
      ∃ e ∈ (compare_schemas A B).labelOrTypeChanged,
        e.settingKey = setting_id t) := by
  have hts : ∀ u : SCSetting, pyIn "Last Updated" (setting_label u) = true →
      is_timestamp_field u = true := by
    intro u hu
    have h1 : "Last Updated".data <:+: (setting_label u).data := of_decide_eq_true hu
    have h2 : "Last Updated".data.map Char.toLower
        <:+: (setting_label u).data.map Char.toLower := h1.map Char.toLower
    have h3 : "date".data <:+: "Last Updated".data.map Char.toLower := by decide
    have h4 := h3.trans h2
    have hdate : pyIn "date" (pyLower (setting_label u)) = true := decide_eq_true h4
    unfold is_timestamp_field
    simp [hdate]
  refine ⟨hts t hlabel, ?_, ?_⟩
  · intro e he heq
    have hproj : (compare_schemas A B).fieldIdDrift
        = field_id_drift_diff (signature_map (schema_settings A))
            (signature_map (schema_settings B)) := rfl
    rw [hproj] at he
    obtain ⟨item, hitem, htsf, hsig⟩ :=
      sig_of_mem_signature_map (field_id_drift_entry he).1
    have := hA item hitem (by rw [hsig, heq])
    rw [this] at htsf
    exact Bool.noConfusion htsf
  · intro f g hf hg htype
    have hproj : (compare_schemas A B).labelOrTypeChanged
        = label_type_diff (settings_dict (schema_settings A))
            (settings_dict (schema_settings B)) := rfl
    rw [hproj]
    unfold label_type_diff
    refine ⟨{ settingKey := setting_id t
              , firstLabel := setting_label f, firstType := setting_type f
              , secondLabel := setting_label g, secondType := setting_type g }
      , List.mem_filterMap.mpr ⟨setting_id t, ?_, ?_⟩, rfl⟩
    · exact mem_key_inter.mpr ⟨pyDictGet_key_mem hf, pyDictGet_key_mem hg⟩
    · unfold label_type_entry_at
      simp only [hf, hg]
      rw [if_pos (Or.inr htype)]

/-- C4, witness: a concrete pair of snapshots sharing one "Last Updated"
timestamp setting whose identifier keeps the same value but whose declared
type changes from textbox to table. -/
theorem timestamp_field_excluded_witness :
    (∀ e ∈ (compare_schemas
        { settings := some [{ field_id := some "idA", label := some "Last Updated"
                              , type := some "textbox"
                              , currentValue := some "2024/01/01 10:00" }] }
        { settings := some [{ field_id := some "idA", label := some "Last Updated"
                              , type := some "table"
                              , currentValue := some "2024/01/01 10:00" }] }).fieldIdDrift,
      e.signature ≠ setting_signature
        { field_id := some "idA", label := some "Last Updated"
          , type := some "textbox", currentValue := some "2024/01/01 10:00" }) ∧
    (∃ e ∈ (compare_schemas
        { settings := some [{ field_id := some "idA", label := some "Last Updated"
                              , type := some "textbox"
                              , currentValue := some "2024/01/01 10:00" }] }
        { settings := some [{ field_id := some "idA", label := some "Last Updated"
                              , type := some "table"
                              , currentValue := some "2024/01/01 10:00" }] }).labelOrTypeChanged,
      e.settingKey = "idA") := by
  have h := timestamp_field_excluded
    { settings := some [{ field_id := some "idA", label := some "Last Updated"
                          , type := some "textbox"
                          , currentValue := some "2024/01/01 10:00" }] }
    { settings := some [{ field_id := some "idA", label := some "Last Updated"
                          , type := some "table"
                          , currentValue := some "2024/01/01 10:00" }] }
    { field_id := some "idA", label := some "Last Updated"
      , type := some "textbox", currentValue := some "2024/01/01 10:00" }
    (by decide) (by decide) (by decide)
  refine ⟨h.2.1, ?_⟩
  obtain ⟨e, he, hkey⟩ := h.2.2
    { field_id := some "idA", label := some "Last Updated"
      , type := some "textbox", currentValue := some "2024/01/01 10:00" }
    { field_id := some "idA", label := some "Last Updated"
      , type := some "table", currentValue := some "2024/01/01 10:00" }
    (by decide) (by decide) (by decide)
  exact ⟨e, he, hkey⟩

lemma radio_entry_at_signature {fr sr : List (String × List String)} {k : String}
    {e : RadioEntry} (h : radio_entry_at fr sr k = some e) : e.signature = k := by
  unfold radio_entry_at at h
  cases h1 : pyDictGet fr k with
  | none => rw [h1] at h; simp at h
  | some l1 =>
    cases h2 : pyDictGet sr k with
    | none => rw [h1, h2] at h; simp at h
    | some l2 =>
      simp only [h1, h2] at h
      by_cases heq : l1 = l2
      · rw [if_pos heq] at h; simp at h
      · rw [if_neg heq] at h
        by_cases hs : pySorted l1 = pySorted l2
        · rw [if_pos hs] at h
          cases Option.some.inj h
          rfl
        · rw [if_neg hs] at h; simp at h

lemma radio_filter_skip {fr sr : List (String × List String)} {sig : String}
    (L : List String) (hall : ∀ a ∈ L, a ≠ sig) :
    ((L.filterMap (radio_entry_at fr sr)).filter (fun e => e.signature == sig)) = [] := by
  induction L with
  | nil => rfl
  | cons a L ih =>
    have ha : a ≠ sig := hall a (List.mem_cons_self a L)
    have hrest := ih (fun b hb => hall b (List.mem_cons_of_mem a hb))
    rw [List.filterMap_cons]
    cases h : radio_entry_at fr sr a with
    | none => exact hrest
    | some e =>
      rw [List.filter_cons]
      have : (e.signature == sig) = false := by
        rw [radio_entry_at_signature h]
        exact beq_eq_false_iff_ne.mpr ha
      rw [this]
      simp only [Bool.false_eq_true, if_false]
      exact hrest

lemma radio_filter_unique {fr sr : List (String × List String)} {sig : String}
    {ent : RadioEntry} (L : List String) (hnd : L.Nodup) (hmem : sig ∈ L)
    (hent : radio_entry_at fr sr sig = some ent) :
    ((L.filterMap (radio_entry_at fr sr)).filter (fun e => e.signature == sig)) = [ent] := by
  induction L with
  | nil => exact absurd hmem (List.not_mem_nil sig)
  | cons a L ih =>
    rw [List.nodup_cons] at hnd
    rcases List.mem_cons.mp hmem with heq | hmemL
    · subst heq
      rw [List.filterMap_cons, hent, List.filter_cons]
      have : (ent.signature == sig) = true := by
        rw [radio_entry_at_signature hent]
        exact beq_self_eq_true sig
      rw [this]
      simp only [if_true]
      rw [radio_filter_skip L (fun b hb hbs => hnd.1 (by rw [← hbs]; exact hb))]
    · have ha : a ≠ sig := fun h => hnd.1 (h ▸ hmemL)
      have hrest := ih hnd.2 hmemL
      rw [List.filterMap_cons]
      cases h : radio_entry_at fr sr a with
      | none => exact hrest
      | some e =>
        rw [List.filter_cons]
        have : (e.signature == sig) = false := by
          rw [radio_entry_at_signature h]
          exact beq_eq_false_iff_ne.mpr ha
        rw [this]
        simp only [Bool.false_eq_true, if_false]
        exact hrest

lemma radio_filter_at_none {fr sr : List (String × List String)} {sig : String}
    (L : List String) (hnone : radio_entry_at fr sr sig = none) :
    ((L.filterMap (radio_entry_at fr sr)).filter (fun e => e.signature == sig)) = [] := by
  induction L with
  | nil => rfl
  | cons a L ih =>
    rw [List.filterMap_cons]
    cases h : radio_entry_at fr sr a with
    | none => exact ih
    | some e =>
      rw [List.filter_cons]
      have hne : (e.signature == sig) = false := by
        rw [radio_entry_at_signature h]
        refine beq_eq_false_iff_ne.mpr ?_
        intro heq
        rw [heq, hnone] at h
        exact Option.noConfusion h
      rw [hne]
      simp only [Bool.false_eq_true, if_false]
      exact ih

lemma key_inter_nodup {l1 : List String} (l2 : List String) (h : l1.Nodup) :
    (key_inter l1 l2).Nodup := by
  unfold key_inter
  exact pySorted_nodup (h.filter _)

/-- C8. For a radio-group signature present in both snapshots with label
lists that differ as sequences but agree as sorted multisets, exactly one
`radioOrderingChangedWithoutLabelChange` entry carries that signature; with
identical label lists, none does. -/
theorem radio_ordering_detection (A B : Schema) (sig : String) (l1 l2 : List String)
    (h1 : pyDictGet (radio_order_index (schema_settings A)) sig = some l1)
    (h2 : pyDictGet (radio_order_index (schema_settings B)) sig = some l2) :
    (l1 ≠ l2 → pySorted l1 = pySorted l2 →
      ((compare_schemas A B).radioOrderingChangedWithoutLabelChange.filter
          (fun e => e.signature == sig))
        = [{ signature := sig, firstOrder := l1, secondOrder := l2 }]) ∧
    (l1 = l2 →
      ((compare_schemas A B).radioOrderingChangedWithoutLabelChange.filter
          (fun e => e.signature == sig)) = []) := by
  have hproj : (compare_schemas A B).radioOrderingChangedWithoutLabelChange
      = radio_ordering_diff (radio_order_index (schema_settings A))
          (radio_order_index (schema_settings B)) := rfl
  rw [hproj]
  unfold radio_ordering_diff
  constructor
  · intro hne hsorted
    refine radio_filter_unique _ (key_inter_nodup _ (List.nodup_dedup _)) ?_ ?_
    · exact mem_key_inter.mpr ⟨pyDictGet_key_mem h1, pyDictGet_key_mem h2⟩
    · unfold radio_entry_at
      simp only [h1, h2]
      rw [if_neg hne, if_pos hsorted]
  · intro heq
    refine radio_filter_at_none _ ?_
    unfold radio_entry_at
    simp only [h1, h2]
    rw [if_pos heq]

/-- C8, witness: two snapshots whose only radio group shares the signature
and carries labels A, B in reversed relative orders. -/
theorem radio_ordering_detection_witness :
    ((compare_schemas
        { settings := some [{ settingKey := some "r1", containerKey := some "ck"
                              , type := some "radio_group"
                              , options := some [{ label := some "A" }, { label := some "B" }] }] }
        { settings := some [{ settingKey := some "r1", containerKey := some "ck"
                              , type := some "radio_group"
                              , options := some [{ label := some "B" }, { label := some "A" }] }] }
      ).radioOrderingChangedWithoutLabelChange.filter
        (fun e => e.signature == "ck||" ++ "|radio_group"))
      = [{ signature := "ck||" ++ "|radio_group"
           , firstOrder := ["A", "B"], secondOrder := ["B", "A"] }] := by
  have h := radio_ordering_detection
    { settings := some [{ settingKey := some "r1", containerKey := some "ck"
                          , type := some "radio_group"
                          , options := some [{ label := some "A" }, { label := some "B" }] }] }
    { settings := some [{ settingKey := some "r1", containerKey := some "ck"
                          , type := some "radio_group"
                          , options := some [{ label := some "B" }, { label := some "A" }] }] }
    ("ck||" ++ "|radio_group") ["A", "B"] ["B", "A"] (by decide) (by decide)
  exact h.1 (by decide) (by decide)

/-- C8, counterexample to the claim as stated: the two label lists
[A, A, B] and [A, B, B] carry the same label set (their deduplications agree)
in different orders, yet no `radioOrderingChangedWithoutLabelChange` entry is
recorded, because the code compares sorted sequences, not sets. -/
theorem radio_ordering_same_set_not_detected :
    radio_order_labels
        { settingKey := some "r1", containerKey := some "ck", type := some "radio_group"
          , options := some [{ label := some "A" }, { label := some "A" }
                             , { label := some "B" }] }
      ≠ radio_order_labels
        { settingKey := some "r1", containerKey := some "ck", type := some "radio_group"
          , options := some [{ label := some "A" }, { label := some "B" }
                             , { label := some "B" }] } ∧
    (radio_order_labels
        { settingKey := some "r1", containerKey := some "ck", type := some "radio_group"
          , options := some [{ label := some "A" }, { label := some "A" }
                             , { label := some "B" }] }).dedup
      = (radio_order_labels
        { settingKey := some "r1", containerKey := some "ck", type := some "radio_group"
          , options := some [{ label := some "A" }, { label := some "B" }
                             , { label := some "B" }] }).dedup ∧
    (compare_schemas
        { settings := some [{ settingKey := some "r1", containerKey := some "ck"
                              , type := some "radio_group"
                              , options := some [{ label := some "A" }, { label := some "A" }
                                                 , { label := some "B" }] }] }
        { settings := some [{ settingKey := some "r1", containerKey := some "ck"
                              , type := some "radio_group"
                              , options := some [{ label := some "A" }, { label := some "B" }
                                                 , { label := some "B" }] }] }
      ).radioOrderingChangedWithoutLabelChange = [] := by
  refine ⟨by decide, by decide, by decide⟩

theorem compare_added_removed_symm (A B : Schema) :
    (compare_schemas A B).containersAdded = (compare_schemas B A).containersRemoved ∧
    (compare_schemas A B).settingsAdded = (compare_schemas B A).settingsRemoved ∧
    (compare_schemas A B).containersRemoved = (compare_schemas B A).containersAdded ∧
    (compare_schemas A B).settingsRemoved = (compare_schemas B A).settingsAdded := by
  exact ⟨rfl, rfl, rfl, rfl⟩

end StabilityCheck

namespace ApplySettings

/-- A selector, the tagged union dispatched by `selector_to_locator`:
`css(value)`, `label(text)`, `role(role, name)`. -/
inductive Selector
  | css (value : String)
  | label (text : String)
  | role (role : String) (name : String)
deriving DecidableEq, Repr

/-- A desired value from the values document: boolean, string, number or null. -/
inductive Value
  | vBool (b : Bool)
  | vStr (s : String)
  | vNum (n : Int)
  | vNone
deriving DecidableEq, Repr

/-- Python `str(value)` on a JSON scalar. -/
def pyStr : Value → String
  | .vBool b => if b then "True" else "False"
  | .vStr s => s
  | .vNum n => toString n
  | .vNone => "None"

/-- Embedding of `normalize_bool`: booleans pass through; strings are stripped and lowered
and checked against the recognized true/false sets, else fall back to Python
truthiness of the original string; numbers fall back to truthiness. -/
def normalize_bool (value : Value) : Bool :=
  match value with
  | .vBool b => b
  | .vStr s =>
    let lowered := pyLower (pyStrip s)
    if lowered ∈ ["true", "1", "yes", "on"] then true
    else if lowered ∈ ["false", "0", "no", "off"] then false
    else !(s == "")
  | .vNum n => !(n == 0)
  | .vNone => false

/-- Embedding of `normalize_str`: `""` for null, else `str(value).strip()`. -/
def normalize_str (value : Value) : String :=
  match value with
  | .vNone => ""
  | v => pyStrip (pyStr v)

/-- Embedding of `normalize_str` applied to a string read back from the page. -/
def normalize_read (s : String) : String := pyStrip s

/-- One `{value, label}` entry of a setting's `options` array. -/
structure AOption where
  value : Option String := none
  label : Option String := none
deriving DecidableEq, Repr

/-- The explicit `selectors` block of a setting: primary plus ordered fallbacks. -/
structure SelBlock where
  primary : Option Selector := none
  fallbacks : List Selector := []
deriving DecidableEq, Repr

/-- The `control.primary_selector` block (role and accessible name). -/
structure RoleSel where
  role : Option String := none
  name : Option String := none
deriving DecidableEq, Repr

/-- The `control` block used when no explicit `selectors` block exists. -/
structure ControlBlock where
  primary_selector : Option RoleSel := none
  fallback_selectors : List Selector := []
deriving DecidableEq, Repr

/-- One setting record from the schema consumed by `apply_settings.py`.
`_desired` models the transient `"_desired"` key the engine writes into the
record while grouping; `none` models an absent key. -/
structure ASetting where
  settingKey : Option String := none
  field_id : Option String := none
  containerKey : String := ""
  type : Option String := none
  options : List AOption := []
  selectors : Option SelBlock := none
  control : Option ControlBlock := none
  _desired : Option Value := none
deriving DecidableEq, Repr

def dfltASetting : ASetting := {}

/-- One entry of a container's `actions` array. -/
structure AAction where
  kind : Option String := none
  selector : Option Selector := none
deriving DecidableEq, Repr

/-- A container record: key, type (page or modal), title and actions. Its
`navPath` is consumed only by the browser-side `open_container` oracle. -/
structure AContainer where
  containerKey : String
  type : Option String := none
  title : Option String := none
  actions : List AAction := []
deriving DecidableEq, Repr

/-- The observable state of the live page: per-element input value, checked
state and inner text, keyed by an abstract element identifier. -/
structure World where
  values : Nat → String
  checked : Nat → Bool
  texts : Nat → String

/-- The browser automation layer, the external collaborator of the engine,
modelled as an oracle. Selector resolution returns the matching element list
or `none` when the underlying call raises; element reads are total functions
of the world; mutating operations may fail with an error message, modelling a
raised automation exception. -/
structure Env where
  resolveSel : Selector → Option (List Nat)
  resolvePage : Selector → Option (List Nat)
  scopeRole : String → String → World → List Nat
  pageRole : String → String → World → List Nat
  input_value : Nat → World → String
  is_checked : Nat → World → Bool
  inner_text : Nat → World → String
  fill : Nat → String → World → Except String World
  check_el : Nat → World → Except String World
  uncheck_el : Nat → World → Except String World
  select_value : Nat → String → World → Except String World
  select_label : Nat → String → World → Except String World
  click_el : Nat → World → Except String World
  press_escape : World → World
  open_container : AContainer → World → World

/-- The candidate selector list built by `resolve_field_locator`: the explicit
`selectors` block when present, else a block synthesized from `control`
(a role selector when `primary_selector` carries a truthy role and name,
plus `fallback_selectors`). The primary slot may be empty. -/
def candidate_selectors (setting : ASetting) : List (Option Selector) :=
  let selector_block :=
    match setting.selectors with
    | some sb => sb
    | none =>
      match setting.control with
      | some c =>
        let primary :=
          match c.primary_selector with
          | some p =>
            match p.role, p.name with
            | some r, some n =>
              if r ≠ "" ∧ n ≠ "" then some (Selector.role r n) else none
            | _, _ => none
          | none => none
        { primary := primary, fallbacks := c.fallback_selectors }
      | none => { primary := none, fallbacks := [] }
  selector_block.primary :: selector_block.fallbacks.map some

/-- The provenance string for candidate position `index`: `"primary"` for 0,
else `"fallback[index-1]"`. -/
def provenance (index : Nat) : String :=
  if index = 0 then "primary" else "fallback[" ++ toString (index - 1) ++ "]"

/-- The candidate loop of `resolve_field_locator`: skip empty candidates,
skip candidates whose resolution raises or yields a count other than one, and
return the first uniquely-resolving candidate with its provenance. -/
def resolve_loop (env : Env) : List (Option Selector) → Nat → Option Nat × String
  | [], _ => (none, "none")
  | none :: rest, index => resolve_loop env rest (index + 1)
  | some sel :: rest, index =>
    match env.resolveSel sel with
    | none => resolve_loop env rest (index + 1)
    | some elems =>
      if elems.length = 1 then (elems.head?, provenance index)
      else resolve_loop env rest (index + 1)

/-- Embedding of `resolve_field_locator`: run the candidate loop from index 0. -/
def resolve_field_locator (env : Env) (setting : ASetting) : Option Nat × String :=
  resolve_loop env (candidate_selectors setting) 0

/-- Access in the style of `normalize_str(option.get("value"))`: access: `""` for an absent key. -/
def norm_opt_str (o : Option String) : String :=
  match o with
  | some s => pyStrip s
  | none => ""

/-- The option scan of `resolve_option_label`: match by value (returning the
label, or the desired text when the label is empty), then by label, else fall
through to the raw desired text. -/
def resolve_option_label_find (desired_text : String) : List AOption → String
  | [] => desired_text
  | o :: rest =>
    if norm_opt_str o.value = desired_text then
      let l := norm_opt_str o.label
      if l = "" then desired_text else l
    else if norm_opt_str o.label = desired_text then norm_opt_str o.label
    else resolve_option_label_find desired_text rest

/-- Embedding of `resolve_option_label`: scan the setting's options for the desired value. -/
def resolve_option_label (setting : ASetting) (desired : Value) : String :=
  resolve_option_label_find (normalize_str desired) setting.options

/-- Embedding of `verify_locator_value`: the per-type post-write verification read. -/
def verify_locator_value (env : Env) (locator : Nat) (setting : ASetting)
    (desired : Value) (w : World) : Bool :=
  let control_type := setting.type
  let desired_text := normalize_str desired
  if control_type = some "checkbox" ∨ control_type = some "switch" then
    env.is_checked locator w == normalize_bool desired
  else if control_type = some "radio_group" then true
  else if control_type = some "dropdown_native" then
    let current := env.input_value locator w
    normalize_read current == desired_text || pyIn desired_text (normalize_read current)
  else if control_type = some "dropdown_aria" then
    let text := normalize_read (env.inner_text locator w)
    let option_label := resolve_option_label setting desired
    pyIn option_label text || pyIn desired_text text
  else if control_type = some "textbox" ∨ control_type = some "spinbutton" then
    normalize_read (env.input_value locator w) == desired_text
  else true

/-- The result of the per-type write section of `apply_setting`: an explicit
early return, an exception propagating to the outer handler (with the value
the `changed` flag holds at the raise point), or fall-through to verification
with the `changed` flag and the post-write world. -/
inductive BranchRes
  | earlyRet (result : Bool × Bool × String) (w : World)
  | raised (changed : Bool) (msg : String) (w : World)
  | done (changed : Bool) (w : World)

/-- The per-type write section of `apply_setting` (everything between locator
resolution and the shared verification step). -/
def apply_branch (env : Env) (locator : Nat) (setting : ASetting) (desired : Value)
    (w : World) : BranchRes :=
  let setting_type := setting.type
  if setting_type = some "textbox" ∨ setting_type = some "spinbutton" then
    let current := normalize_read (env.input_value locator w)
    let target := normalize_str desired
    if current ≠ target then
      match env.fill locator target w with
      | .error e => .raised false e w
      | .ok w1 => .done true w1
    else .done false w
  else if setting_type = some "checkbox" ∨ setting_type = some "switch" then
    let desired_bool := normalize_bool desired
    let current := env.is_checked locator w
    if current ≠ desired_bool then
      match (if desired_bool then env.check_el locator w else env.uncheck_el locator w) with
      | .error e => .raised false e w
      | .ok w1 => .done true w1
    else .done false w
  else if setting_type = some "radio_group" then
    let label := resolve_option_label setting desired
    match env.scopeRole "radio" label w with
    | [] => .earlyRet (false, false, "radio-option-not-found:" ++ label) w
    | radio :: _ =>
      if env.is_checked radio w = false then
        match env.click_el radio w with
        | .error e => .raised false e w
        | .ok w1 => .done true w1
      else .done false w
  else if setting_type = some "dropdown_native" then
    let desired_value := normalize_str desired
    let current := normalize_read (env.input_value locator w)
    if current ≠ desired_value then
      match env.select_value locator desired_value w with
      | .ok w1 => .done true w1
      | .error _ =>
        match env.select_label locator (resolve_option_label setting desired) w with
        | .ok w1 => .done true w1
        | .error e => .raised false e w
    else .done false w
  else if setting_type = some "dropdown_aria" then
    let option_label := resolve_option_label setting desired
    match env.click_el locator w with
    | .error e => .raised false e w
    | .ok w1 =>
      match env.pageRole "option" option_label w1 with
      | [] => .earlyRet (false, false, "aria-option-not-found:" ++ option_label)
          (env.press_escape w1)
      | opt :: _ =>
        match env.click_el opt w1 with
        | .error e => .raised false e w1
        | .ok w2 => .done true w2
  else if setting_type = some "button_dialog" ∨ setting_type = some "text_display"
      ∨ setting_type = some "table" then
    .earlyRet (true, false, "not-writable") w
  else
    .earlyRet (false, false,
      "unsupported-type:" ++ (match setting_type with | some t => t | none => "None")) w

/-- Embedding of `apply_setting`: resolve the locator, run the per-type write section, then
verify, with the radio and aria dropdown types trusted when verification says
no. Returns `(ok, changed, note)` plus the resulting world. -/
def apply_setting (env : Env) (setting : ASetting) (desired : Value) (w : World) :
    (Bool × Bool × String) × World :=
  match resolve_field_locator env setting with
  | (none, _) => ((false, false, "no-unique-selector"), w)
  | (some locator, selector_used) =>
    match apply_branch env locator setting desired w with
    | .earlyRet r w1 => (r, w1)
    | .raised changed e w1 => ((false, changed, "playwright-error:" ++ e), w1)
    | .done changed w1 =>
      let verified := verify_locator_value env locator setting desired w1
      let verified := verified
        || (setting.type == some "radio_group" || setting.type == some "dropdown_aria")
      if verified then ((true, changed, selector_used), w1)
      else ((false, changed, "verification-failed"), w1)

/-- The save-action loop of `click_save_if_needed`: first `save` action whose
selector resolves (scoped first, then page-level) to a clickable element;
failures fall through to the next action. -/
def click_save_actions (env : Env) : List AAction → World → Bool × World
  | [], w => (false, w)
  | action :: rest, w =>
    if action.kind ≠ some "save" then click_save_actions env rest w
    else
      match action.selector with
      | none => click_save_actions env rest w
      | some sel =>
        match env.resolveSel sel with
        | none => click_save_actions env rest w
        | some scopedElems =>
          match scopedElems.head? with
          | some t =>
            match env.click_el t w with
            | .ok w1 => (true, w1)
            | .error _ => click_save_actions env rest w
          | none =>
            match env.resolvePage sel with
            | none => click_save_actions env rest w
            | some pageElems =>
              match pageElems.head? with
              | none => click_save_actions env rest w
              | some t =>
                match env.click_el t w with
                | .ok w1 => (true, w1)
                | .error _ => click_save_actions env rest w

/-- Embedding of `click_save_if_needed`: a no-op returning false when nothing changed. -/
def click_save_if_needed (env : Env) (container : AContainer) (changed : Bool)
    (w : World) : Bool × World :=
  if changed then click_save_actions env container.actions w else (false, w)

/-- The cancel/close loop of `close_modal`: first such action whose selector
resolves (scoped first, then page-level) to a clickable element; `none` when
no action could be clicked. -/
def close_actions_loop (env : Env) : List AAction → World → Option World
  | [], _ => none
  | action :: rest, w =>
    match action.selector with
    | none => close_actions_loop env rest w
    | some sel =>
      match env.resolveSel sel with
      | none => close_actions_loop env rest w
      | some scopedElems =>
        match scopedElems.head? with
        | some t =>
          match env.click_el t w with
          | .ok w1 => some w1
          | .error _ => close_actions_loop env rest w
        | none =>
          match env.resolvePage sel with
          | none => close_actions_loop env rest w
          | some pageElems =>
            match pageElems.head? with
            | none => close_actions_loop env rest w
            | some t =>
              match env.click_el t w with
              | .ok w1 => some w1
              | .error _ => close_actions_loop env rest w

/-- Embedding of `close_modal`: only for modal containers, click the first cancel/close
action, else press Escape. -/
def close_modal (env : Env) (container : AContainer) (w : World) : World :=
  if container.type = some "modal" then
    let close_actions := container.actions.filter
      (fun a => a.kind == some "cancel" || a.kind == some "close")
    match close_actions_loop env close_actions w with
    | some w1 => w1
    | none => env.press_escape w
  else w

/-- One per-setting outcome record. The missing-container path of `main` emits
its message under the `reason` key, every other path under `detail`. -/
structure Outcome where
  settingKey : Option String := none
  containerKey : String := ""
  type : Option String := none
  desired : Option Value := none
  status : String := ""
  detail : Option String := none
  reason : Option String := none
deriving DecidableEq, Repr

/-- The `settings_by_key` index of `main`, keyed by `field_id` or
`settingKey`, mapping to the record's position; records without either key
are excluded; later records win. -/
def settings_by_key_idx (records : List ASetting) : List (String × Nat) :=
  records.enum.filterMap (fun p =>
    let k := pyOr2 p.2.field_id (pyOr2 p.2.settingKey "")
    if k = "" then none else some (k, p.1))

/-- Append an index to a container's group, preserving first-seen container
order as `defaultdict` iteration does. -/
def group_append (groups : List (String × List Nat)) (key : String) (i : Nat) :
    List (String × List Nat) :=
  match groups with
  | [] => [(key, [i])]
  | (k, l) :: rest =>
    if k = key then (k, l ++ [i]) :: rest else (k, l) :: group_append rest key i

/-- One step of the grouping loop of `main`: look the desired key up, write
`_desired` into the matched record and append it to its container's group;
unmatched keys are dropped. -/
def group_step (sbk : List (String × Nat)) (acc : List ASetting × List (String × List Nat))
    (kv : String × Value) : List ASetting × List (String × List Nat) :=
  match pyDictGet sbk kv.1 with
  | none => acc
  | some i =>
    let store := acc.1
    let item := store.getD i dfltASetting
    let item2 := { item with _desired := some kv.2 }
    (store.set i item2, group_append acc.2 item.containerKey i)

/-- The grouping loop of `main`: fold the desired-values document over the
setting store, producing the mutated store and the container groups. -/
def group_settings (records : List ASetting) (values : List (String × Value)) :
    List ASetting × List (String × List Nat) :=
  values.foldl (group_step (settings_by_key_idx records)) (records, [])

/-- The per-container setting loop of `main`: pop `_desired`, apply, record an
outcome, and count settings that changed. Returns the outcomes, the changed
count, the final store and the final world. -/
def apply_container_settings (env : Env) (container : AContainer) :
    List Nat → List ASetting → World → List Outcome × Nat × List ASetting × World
  | [], store, w => ([], 0, store, w)
  | i :: rest, store, w =>
    let setting0 := store.getD i dfltASetting
    let desired := setting0._desired.getD Value.vNone
    let setting := { setting0 with _desired := none }
    let store1 := store.set i setting
    let result := apply_setting env setting desired w
    let ok := result.1.1
    let changed := result.1.2.1
    let note := result.1.2.2
    let w1 := result.2
    let status := if ok then (if changed then "applied" else "skipped") else "failed"
    let contribution := if ok && changed then 1 else 0
    let rest_result := apply_container_settings env container rest store1 w1
    ({ settingKey := setting.settingKey
       , containerKey := container.containerKey
       , type := setting.type
       , desired := some desired
       , status := status
       , detail := some note } :: rest_result.1
     , contribution + rest_result.2.1, rest_result.2.2.1, rest_result.2.2.2)

/-- The `containers_by_key` index of `main`. -/
def containers_by_key (containers : List AContainer) : List (String × AContainer) :=
  containers.map (fun c => (c.containerKey, c))

/-- The outcome `main` emits for a setting whose container key has no
container entry: status failed, message under the `reason` key. -/
def missing_container_outcome (store : List ASetting) (container_key : String)
    (i : Nat) : Outcome :=
  { settingKey := (store.getD i dfltASetting).settingKey
    , containerKey := container_key
    , status := "failed"
    , reason := some "missing-container" }

/-- One container group of `main`: emit missing-container outcomes without
touching the page when the container is unknown, else open, apply all
settings, save if anything changed, and close. Returns the outcomes, the
saved container keys, the final store and the final world. -/
def process_group (env : Env) (containers : List AContainer) (container_key : String)
    (idxs : List Nat) (store : List ASetting) (w : World) :
    List Outcome × List String × List ASetting × World :=
  match pyDictGet (containers_by_key containers) container_key with
  | none => (idxs.map (missing_container_outcome store container_key), [], store, w)
  | some container =>
    let w0 := env.open_container container w
    let r := apply_container_settings env container idxs store w0
    let save_result := click_save_if_needed env container (decide (0 < r.2.1)) r.2.2.2
    let w3 := close_modal env container save_result.2
    (r.1, if save_result.1 then [container_key] else [], r.2.2.1, w3)

/-- The container loop of `main`, over the groups in first-seen order. -/
def run_groups (env : Env) (containers : List AContainer) :
    List (String × List Nat) → List ASetting → World →
    List Outcome × List String × List ASetting × World
  | [], store, w => ([], [], store, w)
  | (ck, idxs) :: rest, store, w =>
    let g := process_group env containers ck idxs store w
    let r := run_groups env containers rest g.2.2.1 g.2.2.2
    (g.1 ++ r.1, g.2.1 ++ r.2.1, r.2.2.1, r.2.2.2)

/-- The application engine of `main` (JSON and process plumbing aside): group
desired values by container, then process each group. Returns the outcomes,
the saved container keys, the final setting store and the final world. -/
def main_apply (env : Env) (containers : List AContainer) (records : List ASetting)
    (values : List (String × Value)) (w : World) :
    List Outcome × List String × List ASetting × World :=
  let grouped := group_settings records values
  run_groups env containers grouped.2 grouped.1 w

/-- C9. Boolean normalization of a string outside both recognized sets falls
back to Python truthiness of the original string: true exactly when the
string is nonempty. -/
theorem normalize_bool_fallback (s : String)
    (h1 : pyLower (pyStrip s) ∉ ["true", "1", "yes", "on"])
    (h2 : pyLower (pyStrip s) ∉ ["false", "0", "no", "off"]) :
    normalize_bool (Value.vStr s) = !(s == "") := by
  show (if pyLower (pyStrip s) ∈ ["true", "1", "yes", "on"] then true
    else if pyLower (pyStrip s) ∈ ["false", "0", "no", "off"] then false
    else !(s == "")) = !(s == "")
  rw [if_neg h1, if_neg h2]

/-- C9, witness: the whitespace-only string " " trims to "" and is in neither
recognized set, yet normalizes to true because the original string is
nonempty; the empty string normalizes to false. -/
theorem normalize_bool_fallback_witness :
    pyLower (pyStrip " ") ∉ ["true", "1", "yes", "on"] ∧
    pyLower (pyStrip " ") ∉ ["false", "0", "no", "off"] ∧
    normalize_bool (Value.vStr " ") = true ∧
    normalize_bool (Value.vStr "") = false := by
  refine ⟨by decide, by decide, ?_, by decide⟩
  rw [normalize_bool_fallback " " (by decide) (by decide)]
  decide

/-- A candidate the resolution loop passes over: an empty slot, a selector
whose resolution raises, or one resolving to a count other than one. -/
def candFails (env : Env) (c : Option Selector) : Bool :=
  match c with
  | none => true
  | some sel =>
    match env.resolveSel sel with
    | none => true
    | some elems => !(elems.length == 1)

lemma resolve_loop_spec (env : Env) (cands : List (Option Selector)) (k i : Nat)
    (sel : Selector) (l : List Nat)
    (hget : cands.getD i none = some sel)
    (hres : env.resolveSel sel = some l)
    (hlen : l.length = 1)
    (hprev : ∀ j, j < i → candFails env (cands.getD j none) = true) :
    resolve_loop env cands k = (l.head?, provenance (k + i)) := by
  induction cands generalizing k i with
  | nil => simp [List.getD] at hget
  | cons c rest ih =>
    cases i with
    | zero =>
      rw [List.getD_cons_zero] at hget
      subst hget
      unfold resolve_loop
      simp only [hres]
      rw [if_pos hlen, Nat.add_zero]
    | succ n =>
      have hc : candFails env c = true := by
        have := hprev 0 (Nat.succ_pos n)
        rwa [List.getD_cons_zero] at this
      have hrest : resolve_loop env (c :: rest) k = resolve_loop env rest (k + 1) := by
        cases c with
        | none => rfl
        | some s =>
          simp only [candFails] at hc
          have hgoal : resolve_loop env (some s :: rest) k
              = (match env.resolveSel s with
                 | none => resolve_loop env rest (k + 1)
                 | some elems =>
                   if elems.length = 1 then (elems.head?, provenance k)
                   else resolve_loop env rest (k + 1)) := rfl
          rw [hgoal]
          cases hr : env.resolveSel s with
          | none => rfl
          | some elems =>
            simp only [hr] at hc
            have hne : ¬ elems.length = 1 := by
              intro h
              rw [h] at hc
              simp at hc
            exact if_neg hne
      rw [hrest]
      have hget2 : rest.getD n none = some sel := by
        rwa [List.getD_cons_succ] at hget
      have hprev2 : ∀ j, j < n → candFails env (rest.getD j none) = true := by
        intro j hj
        have := hprev (j + 1) (Nat.succ_lt_succ hj)
        rwa [List.getD_cons_succ] at this
      rw [ih (k + 1) n hget2 hprev2]
      have : k + 1 + n = k + (n + 1) := by omega
      rw [this]

/-- C5. Uniqueness-first resolution: the first candidate in
primary-then-fallbacks order that resolves to exactly one element wins, with
provenance "primary" for position 0 and "fallback[i-1]" for position i;
candidates that are empty, raise, or resolve to zero or several elements are
passed over. In particular a primary matching two elements loses to a first
fallback matching exactly one, which is returned as "fallback[0]". -/
theorem resolve_first_unique (env : Env) (setting : ASetting) (i : Nat)
    (sel : Selector) (l : List Nat)
    (hget : (candidate_selectors setting).getD i none = some sel)
    (hres : env.resolveSel sel = some l)
    (hlen : l.length = 1)
    (hprev : ∀ j, j < i →
      candFails env ((candidate_selectors setting).getD j none) = true) :
    resolve_field_locator env setting = (l.head?, provenance i) := by
  unfold resolve_field_locator
  have h := resolve_loop_spec env (candidate_selectors setting) 0 i sel l hget hres
    hlen hprev
  rwa [Nat.zero_add] at h

/-- A closed browser oracle used by the concrete witnesses: selector "p"
resolves to two elements, selector "f" to exactly one (element 42),
everything else raises; all reads yield defaults and all writes succeed
without changing the page. -/
def envC5 : Env :=
  { resolveSel := fun sel =>
      match sel with
      | .css "p" => some [10, 11]
      | .css "f" => some [42]
      | _ => none
  , resolvePage := fun _ => none
  , scopeRole := fun _ _ _ => []
  , pageRole := fun _ _ _ => []
  , input_value := fun _ _ => ""
  , is_checked := fun _ _ => false
  , inner_text := fun _ _ => ""
  , fill := fun _ _ w => .ok w
  , check_el := fun _ w => .ok w
  , uncheck_el := fun _ w => .ok w
  , select_value := fun _ _ w => .ok w
  , select_label := fun _ _ w => .ok w
  , click_el := fun _ w => .ok w
  , press_escape := fun w => w
  , open_container := fun _ w => w }

/-- C5, witness: a setting whose primary selector matches two elements and
whose first fallback matches exactly one resolves to the fallback's element
with provenance "fallback[0]". -/
theorem resolve_first_unique_witness :
    resolve_field_locator envC5
      { selectors := some { primary := some (.css "p"), fallbacks := [.css "f"] } }
      = (some 42, "fallback[0]") := by
  have h := resolve_first_unique envC5
    { selectors := some { primary := some (.css "p"), fallbacks := [.css "f"] } }
    1 (.css "f") [42] (by decide) rfl (by decide) (by decide)
  rw [h]
  rfl

/-- One unfolding step of the per-container setting loop. -/
lemma acs_cons (env : Env) (container : AContainer) (i : Nat) (rest : List Nat)
    (store : List ASetting) (w : World) :
    apply_container_settings env container (i :: rest) store w
      = (let setting : ASetting := { store.getD i dfltASetting with _desired := none }
         let desired := (store.getD i dfltASetting)._desired.getD Value.vNone
         let result := apply_setting env setting desired w
         let rest_result := apply_container_settings env container rest
           (store.set i setting) result.2
         ({ settingKey := setting.settingKey
            , containerKey := container.containerKey
            , type := setting.type
            , desired := some desired
            , status := if result.1.1 then (if result.1.2.1 then "applied" else "skipped")
                else "failed"
            , detail := some result.1.2.2 } :: rest_result.1
          , (if result.1.1 && result.1.2.1 then 1 else 0) + rest_result.2.1
          , rest_result.2.2.1, rest_result.2.2.2)) := rfl

lemma apply_setting_not_writable (env : Env) (setting : ASetting) (desired : Value)
    (w : World) (loc : Nat) (prov : String)
    (hty : setting.type = some "button_dialog" ∨ setting.type = some "text_display"
      ∨ setting.type = some "table")
    (hres : resolve_field_locator env setting = (some loc, prov)) :
    apply_setting env setting desired w = ((true, false, "not-writable"), w) := by
  have hbranch : apply_branch env loc setting desired w
      = .earlyRet (true, false, "not-writable") w := by
    rcases hty with h | h | h <;> simp [apply_branch, h]
  unfold apply_setting
  simp only [hres, hbranch]

/-- C1 (amended). A setting of type button_dialog, text_display or table whose
locator resolves uniquely is applied without any write (the world is returned
untouched), succeeds as not writable, and its Outcome carries status
"skipped" — not "applied" — with changed=false (it contributes nothing to the
container's changed count). -/
theorem not_writable_skipped (env : Env) (container : AContainer) (i : Nat)
    (rest : List Nat) (store : List ASetting) (w : World) (setting : ASetting)
    (desired : Value) (loc : Nat) (prov : String)
    (hstore : store.getD i dfltASetting = setting)
    (hdes : setting._desired = some desired)
    (hty : setting.type = some "button_dialog" ∨ setting.type = some "text_display"
      ∨ setting.type = some "table")
    (hres : resolve_field_locator env { setting with _desired := none }
      = (some loc, prov)) :
    apply_setting env { setting with _desired := none } desired w
      = ((true, false, "not-writable"), w) ∧
    (apply_container_settings env container (i :: rest) store w).1.head?
      = some { settingKey := setting.settingKey
               , containerKey := container.containerKey
               , type := setting.type
               , desired := some desired
               , status := "skipped"
               , detail := some "not-writable" } ∧
    (apply_container_settings env container (i :: rest) store w).2.1
      = (apply_container_settings env container rest
          (store.set i { setting with _desired := none }) w).2.1 := by
  have hty2 : ({ setting with _desired := none } : ASetting).type = some "button_dialog"
      ∨ ({ setting with _desired := none } : ASetting).type = some "text_display"
      ∨ ({ setting with _desired := none } : ASetting).type = some "table" := hty
  have happ := apply_setting_not_writable env { setting with _desired := none }
    desired w loc prov hty2 hres
  refine ⟨happ, ?_, ?_⟩
  · rw [acs_cons]
    simp only [hstore, hdes, Option.getD_some, happ]
    simp
  · rw [acs_cons]
    simp only [hstore, hdes, Option.getD_some, happ]
    simp

/-- The initial blank page state used by the concrete runs. -/
def w0 : World := { values := fun _ => "", checked := fun _ => false, texts := fun _ => "" }

def containerC1 : AContainer := { containerKey := "c1" }

def recordC1 : ASetting :=
  { settingKey := some "s1", containerKey := "c1", type := some "text_display"
    , selectors := some { primary := some (.css "f"), fallbacks := [] } }

/-- C1, counterexample to the claim as stated: a text_display setting with a
uniquely resolving selector produces an Outcome with status "skipped" (the
no-write path of `main` maps ok with changed=false to "skipped"), not
"applied". -/
theorem not_writable_status_counterexample :
    (main_apply envC5 [containerC1] [recordC1] [("s1", Value.vStr "x")] w0).1.map
        (fun o => (o.status, o.detail))
      = [("skipped", some "not-writable")] ∧ ("skipped" : String) ≠ "applied" := by
  exact ⟨by decide, by decide⟩

/-- C1, witness for the amended statement at a concrete run. -/
theorem not_writable_skipped_witness :
    apply_setting envC5
        { recordC1 with _desired := none } (Value.vStr "x") w0
      = ((true, false, "not-writable"), w0) ∧
    (apply_container_settings envC5 containerC1 (0 :: [])
        [{ recordC1 with _desired := some (Value.vStr "x") }] w0).1.head?
      = some { settingKey := recordC1.settingKey
               , containerKey := containerC1.containerKey
               , type := recordC1.type
               , desired := some (Value.vStr "x")
               , status := "skipped"
               , detail := some "not-writable" } := by
  have h := not_writable_skipped envC5 containerC1 0 []
    [{ recordC1 with _desired := some (Value.vStr "x") }] w0
    { recordC1 with _desired := some (Value.vStr "x") } (Value.vStr "x") 42 "primary"
    rfl rfl (by decide) (by decide)
  exact ⟨h.1, h.2.1⟩

/-- C6 (amended). A container group whose key has no container entry yields
exactly one failed Outcome per setting, carrying the message under the
`reason` key (the `detail` key stays absent), and neither opens anything nor
touches the store or the page: `process_group` returns them unchanged. -/
theorem missing_container_group (env : Env) (containers : List AContainer)
    (container_key : String) (idxs : List Nat) (store : List ASetting) (w : World)
    (h : pyDictGet (containers_by_key containers) container_key = none) :
    process_group env containers container_key idxs store w
      = (idxs.map (missing_container_outcome store container_key), [], store, w) ∧
    (idxs.map (missing_container_outcome store container_key)).length = idxs.length ∧
    ∀ i ∈ idxs, missing_container_outcome store container_key i
      = { settingKey := (store.getD i dfltASetting).settingKey
          , containerKey := container_key
          , status := "failed"
          , detail := none
          , reason := some "missing-container" } := by
  refine ⟨?_, List.length_map _ _, fun i _ => rfl⟩
  unfold process_group
  simp only [h]

def recordC6 : ASetting := { settingKey := some "s2", containerKey := "c2" }

/-- C6, counterexample to the claim as stated: the missing-container Outcome
carries "missing-container" under the `reason` key while its `detail` key is
absent, so the claimed detail "missing-container" does not hold. -/
theorem missing_container_detail_counterexample :
    (main_apply envC5 [] [recordC6] [("s2", Value.vStr "1")] w0).1.map
        (fun o => (o.status, o.detail, o.reason))
      = [("failed", none, some "missing-container")] := by
  decide

/-- C6, witness for the amended statement at a concrete run. -/
theorem missing_container_group_witness :
    process_group envC5 [] "c2" [0] [recordC6] w0
      = ([missing_container_outcome [recordC6] "c2" 0], [], [recordC6], w0) ∧
    missing_container_outcome [recordC6] "c2" 0
      = { settingKey := some "s2", containerKey := "c2", status := "failed"
          , detail := none, reason := some "missing-container" } := by
  have h := missing_container_group envC5 [] "c2" [0] [recordC6] w0 (by decide)
  exact ⟨h.1, h.2.2 0 (by decide)⟩

lemma clear_desired_eq {s : ASetting} (h : s._desired = none) :
    ({ s with _desired := none } : ASetting) = s := by
  cases s
  simp only at h
  rw [h]

/-- C2 (amended). For a setting of a type other than radio_group and
dropdown_aria, when the write section performed a write (changed=true) and
the post-write verification read does not match, `apply_setting` returns
`(ok=false, changed=true, "verification-failed")` and the Outcome has status
"failed" with detail "verification-failed"; however the setting is NOT
counted in the container's changed count (only outcomes with ok=true count),
so this failed write alone never triggers the container's save action. -/
theorem verification_failed_handling (env : Env) (setting : ASetting)
    (desired : Value) (w w1 : World) (loc : Nat) (prov : String)
    (hres : resolve_field_locator env setting = (some loc, prov))
    (hbranch : apply_branch env loc setting desired w = .done true w1)
    (hver : verify_locator_value env loc setting desired w1 = false)
    (ht1 : setting.type ≠ some "radio_group")
    (ht2 : setting.type ≠ some "dropdown_aria")
    (hdes : setting._desired = none) :
    apply_setting env setting desired w
      = ((false, true, "verification-failed"), w1) ∧
    ∀ (container : AContainer) (i : Nat) (rest : List Nat) (store : List ASetting),
      store.getD i dfltASetting = { setting with _desired := some desired } →
      (apply_container_settings env container (i :: rest) store w).1.head?
        = some { settingKey := setting.settingKey
                 , containerKey := container.containerKey
                 , type := setting.type
                 , desired := some desired
                 , status := "failed"
                 , detail := some "verification-failed" } ∧
      (apply_container_settings env container (i :: rest) store w).2.1
        = (apply_container_settings env container rest (store.set i setting) w1).2.1 := by
  have happ : apply_setting env setting desired w
      = ((false, true, "verification-failed"), w1) := by
    have hb1 : (setting.type == some "radio_group") = false :=
      beq_eq_false_iff_ne.mpr ht1
    have hb2 : (setting.type == some "dropdown_aria") = false :=
      beq_eq_false_iff_ne.mpr ht2
    unfold apply_setting
    simp only [hres, hbranch, hver, hb1, hb2]
    rfl
  refine ⟨happ, ?_⟩
  intro container i rest store hstore
  have hclears : ({ ({ setting with _desired := some desired } : ASetting) with
      _desired := none } : ASetting) = setting := clear_desired_eq hdes
  constructor
  · rw [acs_cons]
    simp only [hstore, hclears, Option.getD_some, happ]
    simp
  · rw [acs_cons]
    simp only [hstore, hclears, Option.getD_some, happ]
    simp

/-- The page state the C2 run starts from: every element reads "old". -/
def wApply : World :=
  { values := fun _ => "old", checked := fun _ => false, texts := fun _ => "" }

/-- The browser oracle of the C2 run: the textbox is element 7, the save
button element 8, and `fill` misbehaves by appending an "X" to the written
value, so the post-write verification read never matches. -/
def envC2 : Env :=
  { envC5 with
    resolveSel := fun sel =>
      match sel with
      | .css "t" => some [7]
      | .css "save" => some [8]
      | _ => none
  , fill := fun e v w =>
      .ok { w with values := fun j => if j = e then v ++ "X" else w.values j } }

def containerC2 : AContainer :=
  { containerKey := "c1"
    , actions := [{ kind := some "save", selector := some (.css "save") }] }

def recordC2 : ASetting :=
  { settingKey := some "s1", containerKey := "c1", type := some "textbox"
    , selectors := some { primary := some (.css "t"), fallbacks := [] } }

/-- The world after the misbehaving fill of the C2 run. -/
def wC2after : World :=
  { wApply with values := fun j => if j = 7 then "new" ++ "X" else wApply.values j }

/-- C2, counterexample to the claim as stated: the verification-failed write
yields the claimed failed Outcome, but the container's changed count stays
zero — no save is triggered (savedContainers is empty) even though the
container's save action is present and clickable (click_save_if_needed with
changed=true would succeed). -/
theorem verification_failed_counterexample :
    (main_apply envC2 [containerC2] [recordC2] [("s1", Value.vStr "new")] wApply).1.map
        (fun o => (o.status, o.detail))
      = [("failed", some "verification-failed")] ∧
    (main_apply envC2 [containerC2] [recordC2] [("s1", Value.vStr "new")] wApply).2.1
      = [] ∧
    (click_save_if_needed envC2 containerC2 true wApply).1 = true := by
  refine ⟨by decide, by decide, by decide⟩

/-- C2, witness for the amended statement at the concrete misbehaving run. -/
theorem verification_failed_handling_witness :
    apply_setting envC2 recordC2 (Value.vStr "new") wApply
      = ((false, true, "verification-failed"), wC2after) ∧
    (apply_container_settings envC2 containerC2 (0 :: [])
        [{ recordC2 with _desired := some (Value.vStr "new") }] wApply).1.head?
      = some { settingKey := recordC2.settingKey
               , containerKey := containerC2.containerKey
               , type := recordC2.type
               , desired := some (Value.vStr "new")
               , status := "failed"
               , detail := some "verification-failed" } := by
  have h := verification_failed_handling envC2 recordC2 (Value.vStr "new") wApply
    wC2after 7 "primary" rfl rfl (by decide) (by decide) (by decide) rfl
  exact ⟨h.1, (h.2 containerC2 0 []
    [{ recordC2 with _desired := some (Value.vStr "new") }] rfl).1⟩

lemma getD_set_self {α : Type} (l : List α) (i : Nat) (a d : α) (h : i < l.length) :
    (l.set i a).getD i d = a := by
  simp [List.getD_eq_getElem?_getD, List.getElem?_set_self, h]

lemma getD_set_ne {α : Type} (l : List α) (i j : Nat) (a d : α) (h : i ≠ j) :
    (l.set i a).getD j d = l.getD j d := by
  simp [List.getD_eq_getElem?_getD, List.getElem?_set_ne h]

lemma getD_of_length_le {α : Type} (l : List α) (i : Nat) (d : α) (h : l.length ≤ i) :
    l.getD i d = d := by
  simp [List.getD_eq_getElem?_getD, List.getElem?_eq_none h]

lemma set_cleared_desired (store : List ASetting) (a : Nat) (s : ASetting) :
    ((store.set a { s with _desired := none }).getD a dfltASetting)._desired = none := by
  by_cases hlen : a < store.length
  · rw [getD_set_self _ _ _ _ hlen]
  · have hle : (store.set a ({ s with _desired := none } : ASetting)).length ≤ a := by
      rw [List.length_set]
      omega
    rw [getD_of_length_le _ _ _ hle]
    rfl

lemma acs_desired_none_preserved (env : Env) (container : AContainer) :
    ∀ (idxs : List Nat) (store : List ASetting) (w : World) (j : Nat),
    ((store.getD j dfltASetting)._desired = none) →
    (((apply_container_settings env container idxs store w).2.2.1.getD j
        dfltASetting)._desired = none) := by
  intro idxs
  induction idxs with
  | nil => intro store w j h; exact h
  | cons i rest ih =>
    intro store w j h
    rw [acs_cons]
    refine ih _ _ j ?_
    by_cases hij : i = j
    · subst hij
      exact set_cleared_desired store i _
    · rw [getD_set_ne _ _ _ _ _ hij]
      exact h

lemma acs_desired_cleared (env : Env) (container : AContainer) :
    ∀ (idxs : List Nat) (store : List ASetting) (w : World) (i : Nat), i ∈ idxs →
    (((apply_container_settings env container idxs store w).2.2.1.getD i
        dfltASetting)._desired = none) := by
  intro idxs
  induction idxs with
  | nil => intro store w i h; exact absurd h (List.not_mem_nil i)
  | cons a rest ih =>
    intro store w i h
    rw [acs_cons]
    rcases List.mem_cons.mp h with heq | hmem
    · subst heq
      exact acs_desired_none_preserved env container rest _ _ i
        (set_cleared_desired store i _)
    · exact ih _ _ i hmem

/-- C10. The engine mutates its setting records: the grouping step writes the
matched desired value into the record's `_desired` slot; the per-container
loop pops it (the final store holds `_desired = none` for every processed
index); but a group whose container is missing returns the store untouched,
so those records keep `_desired` set after the run. -/
theorem desired_mark_lifecycle :
    (∀ (sbk : List (String × Nat)) (store : List ASetting)
       (groups : List (String × List Nat)) (k : String) (v : Value) (i : Nat),
       pyDictGet sbk k = some i → i < store.length →
       ((group_step sbk (store, groups) (k, v)).1.getD i dfltASetting)._desired
         = some v) ∧
    (∀ (env : Env) (container : AContainer) (idxs : List Nat)
       (store : List ASetting) (w : World) (i : Nat), i ∈ idxs →
       ((apply_container_settings env container idxs store w).2.2.1.getD i
           dfltASetting)._desired = none) ∧
    (∀ (env : Env) (containers : List AContainer) (container_key : String)
       (idxs : List Nat) (store : List ASetting) (w : World),
       pyDictGet (containers_by_key containers) container_key = none →
       (process_group env containers container_key idxs store w).2.2.1 = store) := by
  refine ⟨?_, ?_, ?_⟩
  · intro sbk store groups k v i hk hlen
    unfold group_step
    simp only [hk]
    rw [getD_set_self _ _ _ _ hlen]
  · intro env container idxs store w i h
    exact acs_desired_cleared env container idxs store w i h
  · intro env containers container_key idxs store w h
    unfold process_group
    simp only [h]

/-- C10, witness: a concrete grouping step stamps `_desired`, a concrete
container run clears it, and a concrete missing-container group leaves the
store untouched (so the stamp survives). -/
theorem desired_mark_lifecycle_witness :
    ((group_step [("s1", 0)] ([recordC1], []) ("s1", Value.vStr "x")).1.getD 0
        dfltASetting)._desired = some (Value.vStr "x") ∧
    ((apply_container_settings envC5 containerC1 [0]
        [{ recordC1 with _desired := some (Value.vStr "x") }] w0).2.2.1.getD 0
        dfltASetting)._desired = none ∧
    (process_group envC5 [] "c2" [0]
        [{ recordC6 with _desired := some (Value.vStr "1") }] w0).2.2.1
      = [{ recordC6 with _desired := some (Value.vStr "1") }] := by
  refine ⟨desired_mark_lifecycle.1 [("s1", 0)] [recordC1] [] "s1" (Value.vStr "x") 0
      (by decide) (by decide)
    , desired_mark_lifecycle.2.1 envC5 containerC1 [0]
        [{ recordC1 with _desired := some (Value.vStr "x") }] w0 0 (by decide)
    , desired_mark_lifecycle.2.2 envC5 [] "c2" [0]
        [{ recordC6 with _desired := some (Value.vStr "1") }] w0 (by decide)⟩

end ApplySettings
